import Mathlib

/-!
Verification development for the AlSurfaceLayer BRDF
(src/appleseed/renderer/modeling/bsdf/alsurfacelayerbrdf.cpp).

The layer's own code is embedded faithfully over exact rationals (the
source computes in machine floats; rounding is abstracted away, so all
equalities below are equalities of the exact arithmetic the source
expresses).  The external collaborators the spec places out of scope -
the two microfacet distributions, the two Fresnel reflectance functors,
the shading basis, and the nested substrate scattering function - are
modelled as abstract function bundles passed to every operation, exactly
as the source reaches them through virtual calls and shared singletons.
-/

namespace ALayer

/-- A 3-component vector of exact rationals, standing for the source's
`Vector3f` in the local shading frame. -/
structure Vec3 where
  x : ℚ
  y : ℚ
  z : ℚ
deriving DecidableEq

/-- Componentwise sum, `foundation::operator+` on vectors. -/
def addv (a b : Vec3) : Vec3 := ⟨a.x + b.x, a.y + b.y, a.z + b.z⟩

/-- Componentwise negation, `foundation::operator-` on vectors. -/
def negv (a : Vec3) : Vec3 := ⟨-a.x, -a.y, -a.z⟩

/-- Scalar multiple of a vector. -/
def smul (c : ℚ) (a : Vec3) : Vec3 := ⟨c * a.x, c * a.y, c * a.z⟩

/-- Euclidean dot product, `foundation::dot`. -/
def dotv (a b : Vec3) : ℚ := a.x * b.x + a.y * b.y + a.z * b.z

/-- Modelled from the spec: reflection of a direction about a (unit)
normal, the external helper the sampling engine applies to the outgoing
direction and the sampled microfacet normal ("reflect outgoing about m
to get incoming").  The source additionally passes the result through a
normalization-improvement helper, which is the identity under exact
arithmetic on exactly reflected unit vectors and is modelled as such. -/
def reflect (i n : Vec3) : Vec3 :=
  addv (smul (2 * dotv i n) n) (negv i)

/-- An RGB spectrum of exact rationals, standing for the source's
`Spectrum` working in three color channels. -/
structure Spectrum where
  r : ℚ
  g : ℚ
  b : ℚ
deriving DecidableEq

/-- The all-zero spectrum, result of `value.set(0.0f)`. -/
def Spectrum.zero : Spectrum := ⟨0, 0, 0⟩

/-- Uniform scaling of a spectrum, `value *= c`. -/
def Spectrum.scale (s : Spectrum) (c : ℚ) : Spectrum :=
  ⟨s.r * c, s.g * c, s.b * c⟩

/-- Channelwise product of two spectra, `value *= reflectance`. -/
def Spectrum.mulPointwise (s t : Spectrum) : Spectrum :=
  ⟨s.r * t.r, s.g * t.g, s.b * t.b⟩

/-- Largest channel of a spectrum, `foundation::max_value`. -/
def Spectrum.maxValue (s : Spectrum) : ℚ := max s.r (max s.g s.b)

/-- Fused multiply-add on spectra, `foundation::madd(a, b, w)`:
componentwise `a + b * w`. -/
def Spectrum.madd (a b : Spectrum) (w : ℚ) : Spectrum :=
  ⟨a.r + b.r * w, a.g + b.g * w, a.b + b.b * w⟩

/-- Linear interpolation, `foundation::lerp(a, b, t)`. -/
def lerp (a b t : ℚ) : ℚ := a * (1 - t) + b * t

/-- Squaring, `foundation::square`. -/
def square (x : ℚ) : ℚ := x * x

/-- Clamp to the unit interval, `foundation::saturate`. -/
def saturate (x : ℚ) : ℚ := min (max x 0) 1

/-- The local shading basis, reduced to the two frame changes the layer
uses (`transform_to_local` and `transform_to_parent`); the basis
construction itself is an external collaborator. -/
structure Basis3 where
  toLocal : Vec3 → Vec3
  toParent : Vec3 → Vec3

/-- The requested scattering-mode mask.  Modelled from the spec: the
layer only inspects whether glossy scattering is included
(`ScatteringMode::has_glossy`). -/
structure Modes where
  diffuse : Bool
  glossy : Bool
  specular : Bool

/-- `ScatteringMode::has_glossy(modes)`. -/
def hasGlossy (modes : Modes) : Bool := modes.glossy

/-- Scattering event tag carried by a sample; `absent` is the state of a
freshly initialized sample that no branch has filled in. -/
inductive SMode where
  | absent
  | diffuse
  | glossy
  | specular
deriving DecidableEq

/-- The caller-owned sample record (`BSDFSample`): the shading basis and
outgoing direction come filled in; value, probability, mode and incoming
direction are produced (or left untouched - a null sample) by `sample`. -/
structure BSDFSample where
  m_shading_basis : Basis3
  m_outgoing : Vec3
  m_value : Spectrum
  m_probability : Option ℚ
  m_mode : SMode
  m_incoming : Option Vec3

/-- The per-path random cursor (`SamplingContext`), modelled as the
stream of remaining uniform draws. -/
structure SamplingContext where
  stream : List ℚ

/-- Pop four randoms as one atomic block
(`split_in_place(4, 1)` followed by `next2<Vector4f>()`). -/
def SamplingContext.next4 (c : SamplingContext) :
    (ℚ × ℚ × ℚ × ℚ) × SamplingContext :=
  ((c.stream.getD 0 0, c.stream.getD 1 0, c.stream.getD 2 0, c.stream.getD 3 0),
    ⟨c.stream.drop 4⟩)

/-- An external microfacet distribution (`MDF<float>`): importance
sampler, normal distribution D, shadowing-masking G, half-vector
density.  Out of scope per the spec, hence abstract. -/
structure MDF where
  sample : Vec3 → ℚ → ℚ → ℚ → ℚ → ℚ → Vec3
  D : Vec3 → ℚ → ℚ → ℚ
  G : Vec3 → Vec3 → Vec3 → ℚ → ℚ → ℚ
  pdf : Vec3 → Vec3 → ℚ → ℚ → ℚ

/-- The two external Fresnel reflectance functors.  `dielectric` stands
for `FresnelDielectricFun(reflectance, 1, 1/ior)` applied at
(wo, m, n); `conductor` for
`FresnelFriendlyConductorFun(normal_reflectance, edge_tint, 1)` applied
at (wo, m, n).  Out of scope per the spec, hence abstract. -/
structure FresnelFuns where
  dielectric : Spectrum → ℚ → ℚ → Vec3 → Vec3 → Vec3 → Spectrum
  conductor : Spectrum → Spectrum → ℚ → Vec3 → Vec3 → Vec3 → Spectrum

/-- The nested substrate scattering function, already prepared over its
own buffer: the three entry points the layer forwards to.  `evaluate`
returns the spectral value it writes together with its density. -/
structure Substrate where
  sample : SamplingContext → Bool → Bool → BSDFSample → BSDFSample
  evaluate : Bool → Bool → Vec3 → Basis3 → Vec3 → Vec3 → Modes → Spectrum × ℚ
  evaluatePdf : Vec3 → Basis3 → Vec3 → Vec3 → Modes → ℚ

/-- The bundle of external collaborators a model instance reaches: the
two shared distribution singletons, the Fresnel functors, and the
machine square root (used only inside the external `normalize`). -/
structure Externals where
  beckmann_mdf : MDF
  ggx_mdf : MDF
  fresnel : FresnelFuns
  sqrtf : ℚ → ℚ

/-- Modelled from the spec: `normalize(v)` from the external math
library, v scaled by the reciprocal square root of its squared norm;
the square root itself is the abstract machine operation. -/
def normalizev (sq : ℚ → ℚ) (v : Vec3) : Vec3 :=
  smul (1 / sq (dotv v v)) v

/-- `MicrofacetDistribution` selector. -/
inductive Distribution where
  | beckmann
  | ggx
deriving DecidableEq

/-- `FresnelMode` selector. -/
inductive FresnelMode where
  | dielectric
  | metallic
deriving DecidableEq

/-- The precomputed block filled by `prepare_inputs`. -/
structure Precomputed where
  m_alpha_x : ℚ
  m_alpha_y : ℚ
deriving DecidableEq

/-- The per-shading-point input values (`AlSurfaceLayerBRDFInputValues`).
The raw substrate closure pointer and its arena buffer are represented
by the prepared `Substrate` interface the layer calls through. -/
structure InputValues where
  m_roughness : ℚ
  m_anisotropy : ℚ
  m_distribution : Distribution
  m_fresnel_mode : FresnelMode
  m_reflectance : Spectrum
  m_ior : ℚ
  m_normal_reflectance : Spectrum
  m_edge_tint : Spectrum
  m_precomputed : Precomputed

/-- `pick_mdf`: selects one of the two shared distribution singletons. -/
def pick_mdf (ext : Externals) (distribution : Distribution) : MDF :=
  match distribution with
  | Distribution.beckmann => ext.beckmann_mdf
  | Distribution.ggx => ext.ggx_mdf

/-- The roughness/anisotropy part of `prepare_inputs`: derives the
anisotropic widths (alpha_x, alpha_y).  The closure-tree
materialization and the recursive substrate preparation act only on the
external substrate buffer and are represented by the already-prepared
`Substrate` value. -/
def prepare_inputs (values : InputValues) : InputValues :=
  let alpha := square values.m_roughness
  let ax := alpha
  let ay := alpha
  let p :=
    if values.m_anisotropy ≠ 1/2 then
      let t := square (2 * values.m_anisotropy - 1)
      if values.m_anisotropy < 1/2 then
        Precomputed.mk (lerp alpha 1 t) ay
      else
        Precomputed.mk ax (lerp alpha 1 t)
    else
      Precomputed.mk ax ay
  { values with m_precomputed := p }

/-- `fresnel_term`: evaluates the configured Fresnel functor at
(wo, m) with the fixed local normal (0,1,0), after mirroring wo into the
upper hemisphere; writes the spectral weight and returns the saturated
maximum channel as the layer-selection scalar.  Returned as
(scalar, written spectrum). -/
def fresnel_term (ff : FresnelFuns) (values : InputValues)
    (wo : Vec3) (m : Vec3) : ℚ × Spectrum :=
  let n : Vec3 := ⟨0, 1, 0⟩
  let wo := if wo.y < 0 then negv wo else wo
  let value :=
    match values.m_fresnel_mode with
    | FresnelMode.dielectric =>
        ff.dielectric values.m_reflectance 1 (1 / values.m_ior) wo m n
    | FresnelMode.metallic =>
        (ff.conductor values.m_normal_reflectance values.m_edge_tint 1 wo m n).mulPointwise
          values.m_reflectance
  (saturate value.maxValue, value)

/-- `half_reflection_vector`: the normalized half vector of (wi, wo),
flipped so its local y component is nonnegative. -/
def half_reflection_vector (sq : ℚ → ℚ) (wi wo : Vec3) : Vec3 :=
  let h := normalizev sq (addv wi wo)
  if h.y < 0 then negv h else h

/-- `evaluate_reflection`: scales the spectral accumulator by
D·G / |4·wo.y·wi.y|, or sets it to zero when that denominator is zero. -/
def evaluate_reflection (values : InputValues) (mdf : MDF)
    (wi wo m : Vec3) (value : Spectrum) : Spectrum :=
  let denom := |4 * wo.y * wi.y|
  if denom = 0 then
    Spectrum.zero
  else
    let D := mdf.D m values.m_precomputed.m_alpha_x values.m_precomputed.m_alpha_y
    let G := mdf.G wi wo m values.m_precomputed.m_alpha_x values.m_precomputed.m_alpha_y
    value.scale (D * G / denom)

/-- `reflection_pdf`: converts the half-vector density to an incoming
direction density through the reflection Jacobian 1 / (4·|wo·m|), or
returns zero when wo·m is zero. -/
def reflection_pdf (values : InputValues) (mdf : MDF)
    (wo m : Vec3) : ℚ :=
  let cos_wom := dotv wo m
  if cos_wom = 0 then
    0
  else
    let jacobian := 1 / (4 * |cos_wom|)
    jacobian * mdf.pdf wo m values.m_precomputed.m_alpha_x values.m_precomputed.m_alpha_y

/-- `sample`: draws a microfacet normal with three randoms, computes the
layer probability (writing the Fresnel spectrum into the sample value),
and with the fourth random either takes the coating branch (reflect wo
about m, null sample on a hemisphere mismatch) or forwards to the
substrate sampler with cosine multiplication disabled. -/
def sampleBSDF (ext : Externals) (substrate : Substrate)
    (sampling_context : SamplingContext) (values : InputValues)
    (adjoint : Bool) (cosine_mult : Bool) (sample : BSDFSample) : BSDFSample :=
  let wo := sample.m_shading_basis.toLocal sample.m_outgoing
  let mdf := pick_mdf ext values.m_distribution
  let drawn := sampling_context.next4
  let s0 := drawn.1.1
  let s1 := drawn.1.2.1
  let s2 := drawn.1.2.2.1
  let s3 := drawn.1.2.2.2
  let rest := drawn.2
  let m := mdf.sample wo s0 s1 s2
    values.m_precomputed.m_alpha_x values.m_precomputed.m_alpha_y
  let fr := fresnel_term ext.fresnel values wo m
  let layer_probability := fr.1
  let sample := { sample with m_value := fr.2 }
  if s3 < layer_probability then
    let wi := reflect wo m
    if wi.y * wo.y ≤ 0 then
      sample
    else
      { sample with
          m_value := evaluate_reflection values mdf wi wo m sample.m_value
          m_probability := some (reflection_pdf values mdf wo m)
          m_mode := SMode.glossy
          m_incoming := some (sample.m_shading_basis.toParent wi) }
  else
    substrate.sample rest adjoint false sample

/-- `evaluate`: returns the spectral value it writes together with the
returned density. -/
def evaluateBSDF (ext : Externals) (substrate : Substrate)
    (values : InputValues) (adjoint : Bool) (cosine_mult : Bool)
    (geometric_normal : Vec3) (shading_basis : Basis3)
    (outgoing incoming : Vec3) (modes : Modes) : Spectrum × ℚ :=
  let wi := shading_basis.toLocal incoming
  let wo := shading_basis.toLocal outgoing
  if ¬ hasGlossy modes = true ∨ wi.y * wo.y < 0 then
    substrate.evaluate adjoint false geometric_normal shading_basis outgoing incoming modes
  else
    let m := half_reflection_vector ext.sqrtf wi wo
    let fr := fresnel_term ext.fresnel values wo m
    let layer_weight := fr.1
    let value := fr.2
    let mdf := pick_mdf ext values.m_distribution
    let value := evaluate_reflection values mdf wi wo m value
    let probability := layer_weight * reflection_pdf values mdf wo m
    let sub := substrate.evaluate adjoint false geometric_normal shading_basis
      outgoing incoming modes
    let substrate_weight := 1 - layer_weight
    let probability := probability + sub.2 * substrate_weight
    (Spectrum.madd value sub.1 substrate_weight, probability)

/-- `evaluate_pdf`: the combined density alone. -/
def evaluatePdfBSDF (ext : Externals) (substrate : Substrate)
    (values : InputValues) (geometric_normal : Vec3) (shading_basis : Basis3)
    (outgoing incoming : Vec3) (modes : Modes) : ℚ :=
  let wi := shading_basis.toLocal incoming
  let wo := shading_basis.toLocal outgoing
  if ¬ hasGlossy modes = true ∨ wi.y * wo.y < 0 then
    substrate.evaluatePdf geometric_normal shading_basis outgoing incoming modes
  else
    let m := half_reflection_vector ext.sqrtf wi wo
    let fr := fresnel_term ext.fresnel values wo m
    let layer_probability := fr.1
    let mdf := pick_mdf ext values.m_distribution
    let probability := layer_probability * reflection_pdf values mdf wo m
    probability +
      substrate.evaluatePdf geometric_normal shading_basis outgoing incoming modes *
        (1 - layer_probability)

/-! Concrete instances of the external collaborators, used to exercise
the theorems below on closed inputs. -/

/-- A concrete microfacet distribution instance. -/
def demoMDF : MDF where
  sample := fun _ _ _ _ _ _ => ⟨0, 1, 0⟩
  D := fun _ _ _ => 1
  G := fun _ _ _ _ _ => 1
  pdf := fun _ _ _ _ => 1

/-- A concrete pair of Fresnel functors. -/
def demoFresnel : FresnelFuns where
  dielectric := fun refl _ _ _ _ _ => refl
  conductor := fun nr _ _ _ _ _ => nr

/-- A concrete bundle of externals. -/
def demoExt : Externals where
  beckmann_mdf := demoMDF
  ggx_mdf := demoMDF
  fresnel := demoFresnel
  sqrtf := fun q => q

/-- A concrete microfacet distribution whose sampler returns a sideways
normal, exercising the degenerate-reflection path. -/
def demoSideMDF : MDF where
  sample := fun _ _ _ _ _ _ => ⟨1, 0, 0⟩
  D := fun _ _ _ => 1
  G := fun _ _ _ _ _ => 1
  pdf := fun _ _ _ _ => 1

/-- Externals built around the sideways-sampling distribution. -/
def demoSideExt : Externals where
  beckmann_mdf := demoSideMDF
  ggx_mdf := demoSideMDF
  fresnel := demoFresnel
  sqrtf := fun q => q

/-- A concrete substrate with constant value and density. -/
def demoSub : Substrate where
  sample := fun _ _ _ s => s
  evaluate := fun _ _ _ _ _ _ _ => (⟨1, 1, 1⟩, 1/2)
  evaluatePdf := fun _ _ _ _ _ => 1/2

/-- The identity shading basis. -/
def demoBasis : Basis3 where
  toLocal := fun v => v
  toParent := fun v => v

/-- A concrete unit spectrum. -/
def demoSpectrum : Spectrum := ⟨1, 1, 1⟩

/-- Concrete input values with roughness 3/5 and anisotropy 0. -/
def demoValuesA0 : InputValues where
  m_roughness := 3/5
  m_anisotropy := 0
  m_distribution := Distribution.ggx
  m_fresnel_mode := FresnelMode.dielectric
  m_reflectance := demoSpectrum
  m_ior := 3/2
  m_normal_reflectance := demoSpectrum
  m_edge_tint := demoSpectrum
  m_precomputed := ⟨0, 0⟩

/-- Concrete input values with roughness 3/5 and anisotropy 1/4,
precomputed widths already in place. -/
def demoValuesIso : InputValues where
  m_roughness := 3/5
  m_anisotropy := 1/4
  m_distribution := Distribution.ggx
  m_fresnel_mode := FresnelMode.dielectric
  m_reflectance := demoSpectrum
  m_ior := 3/2
  m_normal_reflectance := demoSpectrum
  m_edge_tint := demoSpectrum
  m_precomputed := ⟨9/25, 9/25⟩

/-- Concrete input values in conductor (metallic) mode. -/
def demoValuesMetal : InputValues where
  m_roughness := 3/5
  m_anisotropy := 1/2
  m_distribution := Distribution.beckmann
  m_fresnel_mode := FresnelMode.metallic
  m_reflectance := ⟨1/2, 1/2, 1/2⟩
  m_ior := 3/2
  m_normal_reflectance := demoSpectrum
  m_edge_tint := demoSpectrum
  m_precomputed := ⟨9/25, 9/25⟩

/-- A freshly initialized sample: outgoing straight up in the identity
basis, nothing produced yet. -/
def demoInitSample : BSDFSample where
  m_shading_basis := demoBasis
  m_outgoing := ⟨0, 1, 0⟩
  m_value := Spectrum.zero
  m_probability := none
  m_mode := SMode.absent
  m_incoming := none

/-- A mode mask requesting every scattering kind. -/
def demoModesAll : Modes := ⟨true, true, true⟩

/-- A mode mask excluding glossy scattering. -/
def demoModesNoGlossy : Modes := ⟨true, false, true⟩

/-- Case split helper: the precomputed block at anisotropy 1/2. -/
theorem prepare_mid (values : InputValues) (h : values.m_anisotropy = 1/2) :
    (prepare_inputs values).m_precomputed =
      ⟨square values.m_roughness, square values.m_roughness⟩ := by
  unfold prepare_inputs
  dsimp only
  rw [if_neg (not_ne_iff.mpr h)]

/-- Case split helper: the precomputed block below anisotropy 1/2. -/
theorem prepare_lo (values : InputValues) (h : values.m_anisotropy < 1/2) :
    (prepare_inputs values).m_precomputed =
      ⟨lerp (square values.m_roughness) 1 (square (2 * values.m_anisotropy - 1)),
        square values.m_roughness⟩ := by
  unfold prepare_inputs
  dsimp only
  rw [if_pos (ne_of_lt h), if_pos h]

/-- Case split helper: the precomputed block above anisotropy 1/2. -/
theorem prepare_hi (values : InputValues) (h : 1/2 < values.m_anisotropy) :
    (prepare_inputs values).m_precomputed =
      ⟨square values.m_roughness,
        lerp (square values.m_roughness) 1 (square (2 * values.m_anisotropy - 1))⟩ := by
  unfold prepare_inputs
  dsimp only
  rw [if_pos (ne_of_gt h), if_neg (not_lt_of_gt h)]

/-- C1: `prepare_inputs` performs the fixed anisotropy remap: at
anisotropy 1/2 both widths equal roughness squared; below 1/2 the X
width is stretched to `lerp(alpha, 1, t)` with `t = (2a-1)^2` while the
Y width stays `alpha`; above 1/2 the roles are mirrored; in particular
anisotropy 0 gives `alpha_x = 1` and anisotropy 1 gives `alpha_y = 1`
exactly. -/
theorem alpha_remap (values : InputValues) :
    (values.m_anisotropy = 1/2 →
      (prepare_inputs values).m_precomputed.m_alpha_x = square values.m_roughness ∧
      (prepare_inputs values).m_precomputed.m_alpha_y = square values.m_roughness) ∧
    (values.m_anisotropy < 1/2 →
      (prepare_inputs values).m_precomputed.m_alpha_x =
        lerp (square values.m_roughness) 1 (square (2 * values.m_anisotropy - 1)) ∧
      (prepare_inputs values).m_precomputed.m_alpha_y = square values.m_roughness) ∧
    (1/2 < values.m_anisotropy →
      (prepare_inputs values).m_precomputed.m_alpha_y =
        lerp (square values.m_roughness) 1 (square (2 * values.m_anisotropy - 1)) ∧
      (prepare_inputs values).m_precomputed.m_alpha_x = square values.m_roughness) ∧
    (values.m_anisotropy = 0 →
      (prepare_inputs values).m_precomputed.m_alpha_x = 1 ∧
      (prepare_inputs values).m_precomputed.m_alpha_y = square values.m_roughness) ∧
    (values.m_anisotropy = 1 →
      (prepare_inputs values).m_precomputed.m_alpha_y = 1 ∧
      (prepare_inputs values).m_precomputed.m_alpha_x = square values.m_roughness) := by
  refine ⟨?_, ?_, ?_, ?_, ?_⟩
  · intro h
    rw [prepare_mid values h]
    exact ⟨rfl, rfl⟩
  · intro h
    rw [prepare_lo values h]
    exact ⟨rfl, rfl⟩
  · intro h
    rw [prepare_hi values h]
    exact ⟨rfl, rfl⟩
  · intro h
    have hlt : values.m_anisotropy < 1/2 := by rw [h]; norm_num
    rw [prepare_lo values hlt, h]
    constructor
    · show lerp (square values.m_roughness) 1 (square (2 * 0 - 1)) = 1
      norm_num [lerp, square]
    · rfl
  · intro h
    have hgt : (1:ℚ)/2 < values.m_anisotropy := by rw [h]; norm_num
    rw [prepare_hi values hgt, h]
    constructor
    · show lerp (square values.m_roughness) 1 (square (2 * 1 - 1)) = 1
      norm_num [lerp, square]
    · rfl

/-- Exercises C1 at roughness 3/5, anisotropy 0: the X width is
stretched all the way to 1 and the Y width stays the squared roughness. -/
theorem alpha_remap_witness :
    (prepare_inputs demoValuesA0).m_precomputed.m_alpha_x = 1 ∧
    (prepare_inputs demoValuesA0).m_precomputed.m_alpha_y = square demoValuesA0.m_roughness :=
  (alpha_remap demoValuesA0).2.2.2.1 rfl

/-- C4: `evaluate_reflection` multiplies the spectral accumulator by
D·G / |4·wo.y·wi.y| and sets it to exactly zero when that denominator is
exactly zero. -/
theorem evaluate_reflection_spec (values : InputValues) (mdf : MDF)
    (wi wo m : Vec3) (value : Spectrum) :
    (|4 * wo.y * wi.y| = 0 →
      evaluate_reflection values mdf wi wo m value = Spectrum.zero) ∧
    (|4 * wo.y * wi.y| ≠ 0 →
      evaluate_reflection values mdf wi wo m value =
        value.scale
          (mdf.D m values.m_precomputed.m_alpha_x values.m_precomputed.m_alpha_y *
            mdf.G wi wo m values.m_precomputed.m_alpha_x values.m_precomputed.m_alpha_y /
            |4 * wo.y * wi.y|)) := by
  constructor
  · intro h
    simp [evaluate_reflection, h]
  · intro h
    simp [evaluate_reflection, h]

/-- Exercises C4 at a nonzero denominator: wo = wi = (0,1,0) gives
denominator 4, so the unit accumulator is scaled by D·G/4 = 1/4 under
the demo distribution. -/
theorem evaluate_reflection_spec_witness :
    evaluate_reflection demoValuesIso demoMDF ⟨0, 1, 0⟩ ⟨0, 1, 0⟩ ⟨0, 1, 0⟩ demoSpectrum =
      demoSpectrum.scale
        (demoMDF.D ⟨0, 1, 0⟩ demoValuesIso.m_precomputed.m_alpha_x
            demoValuesIso.m_precomputed.m_alpha_y *
          demoMDF.G ⟨0, 1, 0⟩ ⟨0, 1, 0⟩ ⟨0, 1, 0⟩ demoValuesIso.m_precomputed.m_alpha_x
            demoValuesIso.m_precomputed.m_alpha_y /
          |4 * (Vec3.mk 0 1 0).y * (Vec3.mk 0 1 0).y|) :=
  (evaluate_reflection_spec demoValuesIso demoMDF ⟨0, 1, 0⟩ ⟨0, 1, 0⟩ ⟨0, 1, 0⟩
    demoSpectrum).2 (by norm_num)

/-- C5: `reflection_pdf` equals the half-vector density divided by
|4·(wo·m)|, and is exactly zero when the dot product wo·m is exactly
zero. -/
theorem reflection_pdf_spec (values : InputValues) (mdf : MDF) (wo m : Vec3) :
    (dotv wo m = 0 → reflection_pdf values mdf wo m = 0) ∧
    (dotv wo m ≠ 0 →
      reflection_pdf values mdf wo m =
        mdf.pdf wo m values.m_precomputed.m_alpha_x values.m_precomputed.m_alpha_y /
          |4 * dotv wo m|) := by
  constructor
  · intro h
    simp [reflection_pdf, h]
  · intro h
    simp only [reflection_pdf, if_neg h]
    rw [abs_mul, abs_of_nonneg (by norm_num : (0 : ℚ) ≤ 4)]
    ring

/-- Exercises C5 at wo = m = (0,1,0): the dot product is 1, so the
density is the demo distribution's half-vector density divided by 4. -/
theorem reflection_pdf_spec_witness :
    reflection_pdf demoValuesIso demoMDF ⟨0, 1, 0⟩ ⟨0, 1, 0⟩ =
      demoMDF.pdf ⟨0, 1, 0⟩ ⟨0, 1, 0⟩ demoValuesIso.m_precomputed.m_alpha_x
          demoValuesIso.m_precomputed.m_alpha_y /
        |4 * dotv ⟨0, 1, 0⟩ ⟨0, 1, 0⟩| :=
  (reflection_pdf_spec demoValuesIso demoMDF ⟨0, 1, 0⟩ ⟨0, 1, 0⟩).2 (by norm_num [dotv])

/-- C9: for roughness in (0,1] and anisotropy in [0,1], the widths
computed by `prepare_inputs` lie in (0,1].  (In this embedding the
prepared values are passed read-only to every subsequent operation,
none of which produces an `InputValues`, so they are never modified
afterwards by construction.) -/
theorem alpha_bounds (values : InputValues)
    (hr0 : 0 < values.m_roughness) (hr1 : values.m_roughness ≤ 1)
    (ha0 : 0 ≤ values.m_anisotropy) (ha1 : values.m_anisotropy ≤ 1) :
    (0 < (prepare_inputs values).m_precomputed.m_alpha_x ∧
      (prepare_inputs values).m_precomputed.m_alpha_x ≤ 1) ∧
    (0 < (prepare_inputs values).m_precomputed.m_alpha_y ∧
      (prepare_inputs values).m_precomputed.m_alpha_y ≤ 1) := by
  have halpha0 : 0 < square values.m_roughness := mul_pos hr0 hr0
  have halpha1 : square values.m_roughness ≤ 1 := by
    have := mul_le_one₀ hr1 (le_of_lt hr0) hr1
    simpa [square] using this
  have ht0 : 0 ≤ square (2 * values.m_anisotropy - 1) :=
    mul_self_nonneg _
  have ht1 : square (2 * values.m_anisotropy - 1) ≤ 1 := by
    simp only [square]
    nlinarith
  have hlerp0 : 0 < lerp (square values.m_roughness) 1 (square (2 * values.m_anisotropy - 1)) := by
    simp only [lerp]
    nlinarith [mul_nonneg ht0 (by linarith : (0 : ℚ) ≤ 1 - square values.m_roughness)]
  have hlerp1 : lerp (square values.m_roughness) 1 (square (2 * values.m_anisotropy - 1)) ≤ 1 := by
    simp only [lerp]
    nlinarith [mul_nonneg (by linarith : (0 : ℚ) ≤ 1 - square (2 * values.m_anisotropy - 1))
      (by linarith : (0 : ℚ) ≤ 1 - square values.m_roughness)]
  unfold prepare_inputs
  split_ifs with hne hlt
  · exact ⟨⟨hlerp0, hlerp1⟩, ⟨halpha0, halpha1⟩⟩
  · exact ⟨⟨halpha0, halpha1⟩, ⟨hlerp0, hlerp1⟩⟩
  · exact ⟨⟨halpha0, halpha1⟩, ⟨halpha0, halpha1⟩⟩

/-- C6: when glossy scattering is excluded by the mode mask or the local
hemisphere test wi.y·wo.y < 0 holds, `evaluate` and `evaluate_pdf` both
return exactly the substrate's own result for the same
(outgoing, incoming, mask), with no coating contribution and no
(1 - layer_weight) scaling. -/
theorem gate_substrate_only (ext : Externals) (substrate : Substrate)
    (values : InputValues) (adjoint cm : Bool) (gn : Vec3) (basis : Basis3)
    (outgoing incoming : Vec3) (modes : Modes)
    (h : ¬ hasGlossy modes = true ∨
      (basis.toLocal incoming).y * (basis.toLocal outgoing).y < 0) :
    evaluateBSDF ext substrate values adjoint cm gn basis outgoing incoming modes =
      substrate.evaluate adjoint false gn basis outgoing incoming modes ∧
    evaluatePdfBSDF ext substrate values gn basis outgoing incoming modes =
      substrate.evaluatePdf gn basis outgoing incoming modes := by
  constructor
  · simp only [evaluateBSDF]
    rw [if_pos h]
  · simp only [evaluatePdfBSDF]
    rw [if_pos h]

/-- Exercises C6 with a mask that excludes glossy scattering: both
entry points collapse to the substrate's own result. -/
theorem gate_substrate_only_witness :
    evaluateBSDF demoExt demoSub demoValuesIso true true ⟨0, 1, 0⟩ demoBasis
        ⟨0, 1, 0⟩ ⟨0, 1, 0⟩ demoModesNoGlossy =
      demoSub.evaluate true false ⟨0, 1, 0⟩ demoBasis ⟨0, 1, 0⟩ ⟨0, 1, 0⟩
        demoModesNoGlossy ∧
    evaluatePdfBSDF demoExt demoSub demoValuesIso ⟨0, 1, 0⟩ demoBasis
        ⟨0, 1, 0⟩ ⟨0, 1, 0⟩ demoModesNoGlossy =
      demoSub.evaluatePdf ⟨0, 1, 0⟩ demoBasis ⟨0, 1, 0⟩ ⟨0, 1, 0⟩
        demoModesNoGlossy :=
  gate_substrate_only demoExt demoSub demoValuesIso true true ⟨0, 1, 0⟩ demoBasis
    ⟨0, 1, 0⟩ ⟨0, 1, 0⟩ demoModesNoGlossy (Or.inl (by decide))

/-- C7: on the non-gated path `evaluate` computes the half vector m,
writes the Fresnel spectrum there, evaluates the substrate at the same
arguments with cosine premultiplication disabled, and returns the
spectral sum (coating value plus substrate value scaled by exactly
1 - layer_weight) together with the blended density
layer_weight · reflection_pdf + substrate_density · (1 - layer_weight). -/
theorem evaluate_blend (ext : Externals) (substrate : Substrate)
    (values : InputValues) (adjoint cm : Bool) (gn : Vec3) (basis : Basis3)
    (outgoing incoming : Vec3) (modes : Modes) (wi wo m : Vec3) (w : ℚ)
    (fspec svalue : Spectrum) (spdf : ℚ)
    (hwi : wi = basis.toLocal incoming) (hwo : wo = basis.toLocal outgoing)
    (hg : hasGlossy modes = true) (hh : ¬ wi.y * wo.y < 0)
    (hm : m = half_reflection_vector ext.sqrtf wi wo)
    (hf : fresnel_term ext.fresnel values wo m = (w, fspec))
    (hs : substrate.evaluate adjoint false gn basis outgoing incoming modes =
      (svalue, spdf)) :
    evaluateBSDF ext substrate values adjoint cm gn basis outgoing incoming modes =
      (Spectrum.madd
          (evaluate_reflection values (pick_mdf ext values.m_distribution) wi wo m fspec)
          svalue (1 - w),
        w * reflection_pdf values (pick_mdf ext values.m_distribution) wo m +
          spdf * (1 - w)) := by
  subst hwi
  subst hwo
  subst hm
  have hcond : ¬ (¬ hasGlossy modes = true ∨
      (basis.toLocal incoming).y * (basis.toLocal outgoing).y < 0) := by
    rw [not_or]
    exact ⟨not_not_intro hg, hh⟩
  simp only [evaluateBSDF]
  rw [if_neg hcond, hf, hs]

/-- Exercises C7 at wi = wo = (0,1,0) under the demo collaborators: the
blend of coating and substrate contributions comes out exactly as
stated. -/
theorem evaluate_blend_witness :
    evaluateBSDF demoExt demoSub demoValuesIso false false ⟨0, 1, 0⟩ demoBasis
        ⟨0, 1, 0⟩ ⟨0, 1, 0⟩ demoModesAll =
      (Spectrum.madd
          (evaluate_reflection demoValuesIso
            (pick_mdf demoExt demoValuesIso.m_distribution)
            ⟨0, 1, 0⟩ ⟨0, 1, 0⟩ (half_reflection_vector demoExt.sqrtf ⟨0, 1, 0⟩ ⟨0, 1, 0⟩)
            demoSpectrum)
          ⟨1, 1, 1⟩ (1 - 1),
        1 * reflection_pdf demoValuesIso (pick_mdf demoExt demoValuesIso.m_distribution)
            ⟨0, 1, 0⟩ (half_reflection_vector demoExt.sqrtf ⟨0, 1, 0⟩ ⟨0, 1, 0⟩) +
          1/2 * (1 - 1)) :=
  evaluate_blend demoExt demoSub demoValuesIso false false ⟨0, 1, 0⟩ demoBasis
    ⟨0, 1, 0⟩ ⟨0, 1, 0⟩ demoModesAll ⟨0, 1, 0⟩ ⟨0, 1, 0⟩
    (half_reflection_vector demoExt.sqrtf ⟨0, 1, 0⟩ ⟨0, 1, 0⟩) 1 demoSpectrum
    ⟨1, 1, 1⟩ (1/2) rfl rfl rfl (by norm_num) rfl
    (by
      unfold fresnel_term demoExt demoFresnel demoValuesIso demoSpectrum
      norm_num [Spectrum.maxValue, saturate])
    rfl

/-- C8: `evaluate_pdf` returns the same density as `evaluate`, provided
the substrate's own evaluate and evaluate_pdf densities agree at the
shared arguments: same gate, same half vector, same Fresnel-weighted
blend. -/
theorem pdf_consistent (ext : Externals) (substrate : Substrate)
    (values : InputValues) (adjoint cm : Bool) (gn : Vec3) (basis : Basis3)
    (outgoing incoming : Vec3) (modes : Modes)
    (hsub : (substrate.evaluate adjoint false gn basis outgoing incoming modes).2 =
      substrate.evaluatePdf gn basis outgoing incoming modes) :
    evaluatePdfBSDF ext substrate values gn basis outgoing incoming modes =
      (evaluateBSDF ext substrate values adjoint cm gn basis outgoing incoming
        modes).2 := by
  simp only [evaluateBSDF, evaluatePdfBSDF]
  split_ifs with h
  · exact hsub.symm
  · rw [← hsub]

/-- Exercises C8 on the demo substrate, whose evaluate and evaluate_pdf
densities are both 1/2 everywhere. -/
theorem pdf_consistent_witness :
    evaluatePdfBSDF demoExt demoSub demoValuesIso ⟨0, 1, 0⟩ demoBasis
        ⟨0, 1, 0⟩ ⟨0, 1, 0⟩ demoModesAll =
      (evaluateBSDF demoExt demoSub demoValuesIso false false ⟨0, 1, 0⟩ demoBasis
        ⟨0, 1, 0⟩ ⟨0, 1, 0⟩ demoModesAll).2 :=
  pdf_consistent demoExt demoSub demoValuesIso false false ⟨0, 1, 0⟩ demoBasis
    ⟨0, 1, 0⟩ ⟨0, 1, 0⟩ demoModesAll rfl

/-- Shared characterization of the two branches of `sample`, used to
settle both branch-selection and null-sample properties. -/
theorem sampleBSDF_cases (ext : Externals) (substrate : Substrate)
    (ctx : SamplingContext) (values : InputValues) (adjoint cm : Bool)
    (sample : BSDFSample) (wo m : Vec3) (p : ℚ) (fspec : Spectrum)
    (hwo : wo = sample.m_shading_basis.toLocal sample.m_outgoing)
    (hm : m = (pick_mdf ext values.m_distribution).sample wo
      (ctx.stream.getD 0 0) (ctx.stream.getD 1 0) (ctx.stream.getD 2 0)
      values.m_precomputed.m_alpha_x values.m_precomputed.m_alpha_y)
    (hf : fresnel_term ext.fresnel values wo m = (p, fspec)) :
    (ctx.stream.getD 3 0 < p →
      sampleBSDF ext substrate ctx values adjoint cm sample =
        (if (reflect wo m).y * wo.y ≤ 0 then
          { sample with m_value := fspec }
        else
          { sample with
              m_value := evaluate_reflection values (pick_mdf ext values.m_distribution)
                (reflect wo m) wo m fspec
              m_probability :=
                some (reflection_pdf values (pick_mdf ext values.m_distribution) wo m)
              m_mode := SMode.glossy
              m_incoming := some (sample.m_shading_basis.toParent (reflect wo m)) })) ∧
    (¬ ctx.stream.getD 3 0 < p →
      sampleBSDF ext substrate ctx values adjoint cm sample =
        substrate.sample ⟨ctx.stream.drop 4⟩ adjoint false
          { sample with m_value := fspec }) := by
  constructor
  · intro hb
    subst hwo
    subst hm
    simp only [sampleBSDF, SamplingContext.next4, hf]
    rw [if_pos hb]
  · intro hb
    subst hwo
    subst hm
    simp only [sampleBSDF, SamplingContext.next4, hf]
    rw [if_neg hb]

/-- C2: `sample` draws the microfacet normal from the selected
distribution with the first three of the four randoms, takes the layer
probability as the saturated maximum channel of the Fresnel spectrum at
(outgoing, m) - which is also written into the sample value - and uses
the fourth random to select exactly one branch: below the probability
the coating branch, otherwise the substrate sampler on the continuation
of the same sampling context with cosine multiplication disabled. -/
theorem sample_branch_selection (ext : Externals) (substrate : Substrate)
    (ctx : SamplingContext) (values : InputValues) (adjoint cm : Bool)
    (sample : BSDFSample) (wo m : Vec3) (p : ℚ) (fspec : Spectrum)
    (hwo : wo = sample.m_shading_basis.toLocal sample.m_outgoing)
    (hm : m = (pick_mdf ext values.m_distribution).sample wo
      (ctx.stream.getD 0 0) (ctx.stream.getD 1 0) (ctx.stream.getD 2 0)
      values.m_precomputed.m_alpha_x values.m_precomputed.m_alpha_y)
    (hf : fresnel_term ext.fresnel values wo m = (p, fspec)) :
    p = saturate fspec.maxValue ∧
    (ctx.stream.getD 3 0 < p →
      sampleBSDF ext substrate ctx values adjoint cm sample =
        (if (reflect wo m).y * wo.y ≤ 0 then
          { sample with m_value := fspec }
        else
          { sample with
              m_value := evaluate_reflection values (pick_mdf ext values.m_distribution)
                (reflect wo m) wo m fspec
              m_probability :=
                some (reflection_pdf values (pick_mdf ext values.m_distribution) wo m)
              m_mode := SMode.glossy
              m_incoming := some (sample.m_shading_basis.toParent (reflect wo m)) })) ∧
    (¬ ctx.stream.getD 3 0 < p →
      sampleBSDF ext substrate ctx values adjoint cm sample =
        substrate.sample ⟨ctx.stream.drop 4⟩ adjoint false
          { sample with m_value := fspec }) := by
  have hproj : (fresnel_term ext.fresnel values wo m).1 =
      saturate ((fresnel_term ext.fresnel values wo m).2).maxValue := rfl
  rw [hf] at hproj
  have hcasesv := sampleBSDF_cases ext substrate ctx values adjoint cm sample
    wo m p fspec hwo hm hf
  exact ⟨hproj, hcasesv.1, hcasesv.2⟩

/-- Exercises C2 on a concrete random block (0,0,0,1): the fourth
random 1 is not below the layer probability 1, so the call forwards to
the substrate sampler on the drained context with cosine multiplication
disabled. -/
theorem sample_branch_selection_witness :
    (1 : ℚ) = saturate (Spectrum.maxValue ⟨1, 1, 1⟩) ∧
    sampleBSDF demoExt demoSub ⟨[0, 0, 0, 1]⟩ demoValuesIso false false demoInitSample =
      demoSub.sample ⟨[]⟩ false false { demoInitSample with m_value := ⟨1, 1, 1⟩ } := by
  have h := sample_branch_selection demoExt demoSub ⟨[0, 0, 0, 1]⟩ demoValuesIso
    false false demoInitSample ⟨0, 1, 0⟩ ⟨0, 1, 0⟩ 1 ⟨1, 1, 1⟩ rfl rfl
    (by
      unfold fresnel_term demoExt demoFresnel demoValuesIso demoSpectrum
      norm_num [Spectrum.maxValue, saturate])
  exact ⟨h.1, h.2.2 (by norm_num)⟩

/-- C3: in the coating branch the incoming direction is the reflection
of the outgoing direction about m; when the local y components of that
reflection and of the outgoing direction multiply to at most zero, the
call returns a null sample - probability, scattering mode and incoming
direction are left unproduced - and otherwise the sample's incoming
direction is exactly the reflected direction carried back to the parent
frame. -/
theorem coating_branch_null_sample (ext : Externals) (substrate : Substrate)
    (ctx : SamplingContext) (values : InputValues) (adjoint cm : Bool)
    (sample : BSDFSample) (wo m wi : Vec3) (p : ℚ) (fspec : Spectrum)
    (hwo : wo = sample.m_shading_basis.toLocal sample.m_outgoing)
    (hm : m = (pick_mdf ext values.m_distribution).sample wo
      (ctx.stream.getD 0 0) (ctx.stream.getD 1 0) (ctx.stream.getD 2 0)
      values.m_precomputed.m_alpha_x values.m_precomputed.m_alpha_y)
    (hf : fresnel_term ext.fresnel values wo m = (p, fspec))
    (hwi : wi = reflect wo m)
    (hbranch : ctx.stream.getD 3 0 < p)
    (hp0 : sample.m_probability = none)
    (hm0 : sample.m_mode = SMode.absent)
    (hi0 : sample.m_incoming = none) :
    (wi.y * wo.y ≤ 0 →
      (sampleBSDF ext substrate ctx values adjoint cm sample).m_probability = none ∧
      (sampleBSDF ext substrate ctx values adjoint cm sample).m_mode = SMode.absent ∧
      (sampleBSDF ext substrate ctx values adjoint cm sample).m_incoming = none) ∧
    (¬ wi.y * wo.y ≤ 0 →
      (sampleBSDF ext substrate ctx values adjoint cm sample).m_incoming =
        some (sample.m_shading_basis.toParent (reflect wo m))) := by
  subst hwi
  have hmain := sampleBSDF_cases ext substrate ctx values adjoint cm sample
    wo m p fspec hwo hm hf
  have heq := hmain.1 hbranch
  constructor
  · intro hnull
    rw [heq, if_pos hnull]
    exact ⟨hp0, hm0, hi0⟩
  · intro hok
    rw [heq, if_neg hok]

/-- Exercises C3 on a concrete degenerate geometry: with the microfacet
normal drawn sideways, the reflection of (0,1,0) lands in the lower
hemisphere, so the coating branch yields a null sample. -/
theorem coating_branch_null_sample_witness :
    (sampleBSDF demoSideExt demoSub ⟨[0, 0, 0, 0]⟩ demoValuesIso false false
      demoInitSample).m_probability = none ∧
    (sampleBSDF demoSideExt demoSub ⟨[0, 0, 0, 0]⟩ demoValuesIso false false
      demoInitSample).m_mode = SMode.absent ∧
    (sampleBSDF demoSideExt demoSub ⟨[0, 0, 0, 0]⟩ demoValuesIso false false
      demoInitSample).m_incoming = none :=
  (coating_branch_null_sample demoSideExt demoSub ⟨[0, 0, 0, 0]⟩ demoValuesIso
    false false demoInitSample ⟨0, 1, 0⟩ ⟨1, 0, 0⟩ ⟨0, -1, 0⟩ 1 ⟨1, 1, 1⟩ rfl rfl
    (by
      unfold fresnel_term demoSideExt demoFresnel demoValuesIso demoSpectrum
      norm_num [Spectrum.maxValue, saturate])
    (by norm_num [reflect, dotv, smul, addv, negv, Vec3.mk.injEq])
    (by norm_num) rfl rfl rfl).1
    (by norm_num)

/-- C10: `fresnel_term` first mirrors the outgoing direction into the
upper local hemisphere (negating it exactly when wo.y < 0) and then, in
conductor mode, writes the artist-friendly conductor reflectance at the
mirrored (wo, m) multiplied channelwise by the reflectance parameter -
in dielectric mode the dielectric reflectance unmultiplied - and returns
the saturated maximum channel, which therefore always lies in [0, 1]. -/
theorem fresnel_term_spec (ff : FresnelFuns) (values : InputValues)
    (wo m wm : Vec3)
    (hwm : wm = if wo.y < 0 then negv wo else wo) :
    (values.m_fresnel_mode = FresnelMode.metallic →
      (fresnel_term ff values wo m).2 =
        (ff.conductor values.m_normal_reflectance values.m_edge_tint 1 wm m
          ⟨0, 1, 0⟩).mulPointwise values.m_reflectance) ∧
    (values.m_fresnel_mode = FresnelMode.dielectric →
      (fresnel_term ff values wo m).2 =
        ff.dielectric values.m_reflectance 1 (1 / values.m_ior) wm m ⟨0, 1, 0⟩) ∧
    (wo.y < 0 → wm = negv wo) ∧ (¬ wo.y < 0 → wm = wo) ∧
    0 ≤ (fresnel_term ff values wo m).1 ∧ (fresnel_term ff values wo m).1 ≤ 1 := by
  refine ⟨?_, ?_, ?_, ?_, ?_, ?_⟩
  · intro hmode
    subst hwm
    simp only [fresnel_term, hmode]
  · intro hmode
    subst hwm
    simp only [fresnel_term, hmode]
  · intro hneg
    rw [hwm, if_pos hneg]
  · intro hpos
    rw [hwm, if_neg hpos]
  · exact le_min (le_max_right _ _) zero_le_one
  · exact min_le_right _ _

/-- Exercises C10 in conductor mode with wo = (0,-1,0): the outgoing
direction is mirrored to (0,1,0), the written spectrum is the conductor
reflectance scaled channelwise by the reflectance parameter 1/2, and
the returned probability lies in [0,1]. -/
theorem fresnel_term_spec_witness :
    (fresnel_term demoFresnel demoValuesMetal ⟨0, -1, 0⟩ ⟨0, 1, 0⟩).2 =
      (demoFresnel.conductor demoValuesMetal.m_normal_reflectance
        demoValuesMetal.m_edge_tint 1 (negv ⟨0, -1, 0⟩) ⟨0, 1, 0⟩
        ⟨0, 1, 0⟩).mulPointwise demoValuesMetal.m_reflectance ∧
    0 ≤ (fresnel_term demoFresnel demoValuesMetal ⟨0, -1, 0⟩ ⟨0, 1, 0⟩).1 ∧
    (fresnel_term demoFresnel demoValuesMetal ⟨0, -1, 0⟩ ⟨0, 1, 0⟩).1 ≤ 1 := by
  have h := fresnel_term_spec demoFresnel demoValuesMetal ⟨0, -1, 0⟩ ⟨0, 1, 0⟩
    (negv ⟨0, -1, 0⟩) (by norm_num)
  exact ⟨h.1 rfl, h.2.2.2.2⟩

/-- Exercises C9 at roughness 3/5, anisotropy 0: both precomputed widths
lie in (0,1]. -/
theorem alpha_bounds_witness :
    (0 < (prepare_inputs demoValuesA0).m_precomputed.m_alpha_x ∧
      (prepare_inputs demoValuesA0).m_precomputed.m_alpha_x ≤ 1) ∧
    (0 < (prepare_inputs demoValuesA0).m_precomputed.m_alpha_y ∧
      (prepare_inputs demoValuesA0).m_precomputed.m_alpha_y ≤ 1) :=
  alpha_bounds demoValuesA0 (by norm_num [demoValuesA0]) (by norm_num [demoValuesA0])
    (by norm_num [demoValuesA0]) (by norm_num [demoValuesA0])

end ALayer
